import Mathlib

/-!
# Verification of the shadowsocksr-native connection core

Shallow embedding of the two source files of this repository:

* `src/sockaddr_universal.c` — the SOCKS5 target-address wire codec
  (`socks5_address_parse`, `socks5_address_size`, `socks5_address_binary`);
* `src/client/tunnel.c` — the session/socket lifecycle core
  (`tunnel_shutdown`, `tunnel_release`, `socket_close`, the completion
  callbacks, and the read/write/read-stop operations).

Bytes are modelled as `Nat` values (the C type `uint8_t` keeps them below
256; where the C source applies an explicit narrowing cast we write `% 256`).
A byte buffer handed to the parser is modelled as an oracle `Nat → Nat`
together with its declared length, so that reads past the declared length
remain observable; the parser returns, alongside its result, the exact list
of byte indices it read, mirroring the sequence of `data[...]` accesses in
the C source.  Nullable C pointers are modelled with `Option`.
-/

/-! ## Address codec: data model (`struct socks5_address`)

The header `sockaddr_universal.h` is not part of the sources, so the enum
values and the domain-name buffer bound are modelled from the spec. -/

/-- Modelled from the spec: the `SOCKS5_ADDRTYPE` value for an invalid /
unrecognized address kind (the header `sockaddr_universal.h` is missing from
the sources); the spec rejects "any other kind value" as invalid. -/
def SOCKS5_ADDRTYPE_INVALID : Nat := 0

/-- Modelled from the spec: the IPv4 kind tag; the spec scenario encodes
IPv4 `1.2.3.4:80` as `01 01 02 03 04 00 50`, pinning the tag to 1. -/
def SOCKS5_ADDRTYPE_IPV4 : Nat := 1

/-- Modelled from the spec: the domain-name kind tag; the spec scenario
encodes domain `"example.com"` with leading byte `03`, pinning the tag to 3. -/
def SOCKS5_ADDRTYPE_DOMAINNAME : Nat := 3

/-- Modelled from the spec: the IPv6 kind tag, 4 by the SOCKS5 wire
convention the spec's wire format follows (1 = IPv4, 3 = domain, 4 = IPv6). -/
def SOCKS5_ADDRTYPE_IPV6 : Nat := 4

/-- Modelled from the spec: the size of the fixed `domainname` character
buffer inside `struct socks5_address` ("name is bounded to a fixed maximum
buffer size"); a 1-byte length prefix bounds names to 255 bytes, so the
buffer holds 256 bytes including the terminating NUL. -/
def SOCKS5_DOMAINNAME_BUFSIZE : Nat := 256

/-- `struct socks5_address`.  The C union over the three payloads is
modelled with one field per member; the `domainname` member is a
NUL-terminated C string, modelled as the list of its (nonzero) bytes
before the terminator. -/
structure socks5_address where
  addr_type : Nat
  ipv4 : List Nat
  ipv6 : List Nat
  domainname : List Nat
  port : Nat
  deriving DecidableEq, Repr

/-- `memcpy(dst, data + start, n)` on the read side: the list of `n` bytes
of the oracle `data` starting at index `start`. -/
def readBytes (data : Nat → Nat) (start : Nat) : Nat → List Nat
  | 0 => []
  | n + 1 => data start :: readBytes data (start + 1) n

/-- `socks5_address_parse` from `src/sockaddr_universal.c`, inner part
(after the NULL/zero-length guard).  Returns the C `bool` result, the
output structure (threaded from the caller's `*addr`), and the list of
input indices read, in the order the C code reads them: the kind tag at
index 0; for a domain the length byte at index 1 (read before the length
check); then the payload and the two port bytes.  The port is read with
`ntohs`, i.e. big-endian. -/
def socks5_address_parseCore (data : Nat → Nat) (len : Nat) (addr : socks5_address) :
    Bool × socks5_address × List Nat :=
  let addr_type := data 0
  if addr_type = SOCKS5_ADDRTYPE_IPV4 then
    -- addr_size = sizeof(struct in_addr) = 4
    if len < 1 + 4 + 2 then (false, addr, [0])
    else
      (true,
        { addr with
            addr_type := SOCKS5_ADDRTYPE_IPV4
            ipv4 := readBytes data 1 4
            port := data 5 * 256 + data 6 },
        [0] ++ List.range' 1 4 ++ [5, 6])
  else if addr_type = SOCKS5_ADDRTYPE_DOMAINNAME then
    let addr_size := data 1
    if len < 1 + 1 + addr_size + 2 then (false, addr, [0, 1])
    else
      (true,
        { addr with
            addr_type := SOCKS5_ADDRTYPE_DOMAINNAME
            -- memset to 0 then memcpy of addr_size bytes: the resulting C
            -- string holds the copied bytes up to the first zero byte
            domainname := (readBytes data 2 addr_size).takeWhile (fun b => b ≠ 0)
            port := data (2 + addr_size) * 256 + data (2 + addr_size + 1) },
        [0, 1] ++ List.range' 2 addr_size ++ [2 + addr_size, 2 + addr_size + 1])
  else if addr_type = SOCKS5_ADDRTYPE_IPV6 then
    -- addr_size = sizeof(struct in6_addr) = 16
    if len < 1 + 16 + 2 then (false, addr, [0])
    else
      (true,
        { addr with
            addr_type := SOCKS5_ADDRTYPE_IPV6
            ipv6 := readBytes data 1 16
            port := data 17 * 256 + data 18 },
        [0] ++ List.range' 1 16 ++ [17, 18])
  else
    (false, { addr with addr_type := SOCKS5_ADDRTYPE_INVALID }, [0])

/-- `socks5_address_parse` from `src/sockaddr_universal.c`.  `data == NULL`
is `none`; `addr` is the in-out `*addr` structure (`none` for a NULL output
pointer).  The guard `data==NULL || len==0 || addr==NULL` returns `false`
before any byte is read (empty read trace). -/
def socks5_address_parse (dataOpt : Option (Nat → Nat)) (len : Nat)
    (addrOpt : Option socks5_address) : Bool × Option socks5_address × List Nat :=
  match dataOpt, addrOpt with
  | some data, some addr =>
    if len = 0 then (false, some addr, [])
    else
      let r := socks5_address_parseCore data len addr
      (r.1, some r.2.1, r.2.2)
  | _, _ => (false, addrOpt, [])

/-- `socks5_address_size` from `src/sockaddr_universal.c`; the argument is
the nullable `const struct socks5_address *`.  For a domain the payload
length is `strlen(addr->addr.domainname)`, i.e. the length of the modelled
string. -/
def socks5_address_size : Option socks5_address → Nat
  | none => 0
  | some addr =>
    if addr.addr_type = SOCKS5_ADDRTYPE_IPV4 then 1 + 4 + 2
    else if addr.addr_type = SOCKS5_ADDRTYPE_DOMAINNAME then
      1 + 1 + addr.domainname.length + 2
    else if addr.addr_type = SOCKS5_ADDRTYPE_IPV6 then 1 + 16 + 2
    else 0

/-- `socks5_address_binary` from `src/sockaddr_universal.c`.  The output
buffer pointer is modelled as `Option Unit` (NULL or not) and the function
returns the sequence of bytes it writes (`none` for a NULL C result).  The
kind tag and the domain length are written through explicit `(uint8_t)`
casts (`% 256`); the port is written with `htons`, i.e. big-endian.  In the
`default` switch branch the C code has already written the tag byte before
returning NULL; the returned failure carries no bytes. -/
def socks5_address_binary (addrOpt : Option socks5_address) (buffer : Option Unit)
    (size : Nat) : Option (List Nat) :=
  match addrOpt, buffer with
  | some addr, some _ =>
    if size = 0 then none
    else if size < socks5_address_size (some addr) then none
    else
      let tagByte := addr.addr_type % 256
      if addr.addr_type = SOCKS5_ADDRTYPE_IPV4 then
        some (tagByte :: addr.ipv4 ++ [addr.port / 256 % 256, addr.port % 256])
      else if addr.addr_type = SOCKS5_ADDRTYPE_DOMAINNAME then
        some (tagByte :: addr.domainname.length % 256 ::
          addr.domainname ++ [addr.port / 256 % 256, addr.port % 256])
      else if addr.addr_type = SOCKS5_ADDRTYPE_IPV6 then
        some (tagByte :: addr.ipv6 ++ [addr.port / 256 % 256, addr.port % 256])
      else none
  | _, _ => none

/-- A `struct socks5_address` value representable in the C data model: a
recognized kind tag, a payload of the kind's wire size made of bytes
(nonzero bytes for the NUL-terminated domain string, which must fit the
fixed name buffer), and a 16-bit port. -/
def socks5_address_valid (a : socks5_address) : Prop :=
  a.port < 65536 ∧
  ((a.addr_type = SOCKS5_ADDRTYPE_IPV4 ∧ a.ipv4.length = 4 ∧ ∀ b ∈ a.ipv4, b < 256) ∨
   (a.addr_type = SOCKS5_ADDRTYPE_DOMAINNAME ∧
      a.domainname.length ≤ SOCKS5_DOMAINNAME_BUFSIZE - 1 ∧
      ∀ b ∈ a.domainname, 0 < b ∧ b < 256) ∨
   (a.addr_type = SOCKS5_ADDRTYPE_IPV6 ∧ a.ipv6.length = 16 ∧ ∀ b ∈ a.ipv6, b < 256))

instance (a : socks5_address) : Decidable (socks5_address_valid a) := by
  unfold socks5_address_valid; infer_instance

/-! ## Tunnel core: data model (`src/client/tunnel.c`)

The model is the single-threaded reactor state of one session.  Collaborator
hooks are modelled by presence flags (a C `NULL` check or `ASSERT` on the
function pointer) plus an invocation log; the collaborator's
`tunnel_is_on_the_fly` answer is modelled as a boolean field.  `ASSERT` /
`UNREACHABLE` failures abort the process and are modelled as `none`.
`uv_close` requests are recorded in a list; their completions are delivered
later as `CloseEvt` values. -/

/-- The socket state enum of `tunnel.h`: `socket_stop` (idle),
`socket_busy` (in progress), `socket_done` (completed), `socket_dead`
(closed). -/
inductive SocketState where
  | socket_stop
  | socket_busy
  | socket_done
  | socket_dead
  deriving DecidableEq, Repr

/-- Address family of the first `addrinfo` answer (`AF_INET`, `AF_INET6`,
or anything else, which the code treats as unreachable). -/
inductive AddrFamily where
  | af_inet
  | af_inet6
  | af_other
  deriving DecidableEq, Repr

/-- Which of the session's two sockets a handle belongs to. -/
inductive Which where
  | incoming
  | outgoing
  deriving DecidableEq, Repr

/-- Which owned OS resource of a socket an asynchronous `uv_close` is
closing: the socket handle or the timer handle. -/
inductive HandleKind where
  | socket_handle
  | timer_handle
  deriving DecidableEq, Repr

/-- One outstanding asynchronous close: the pending `uv_close` of one
resource of one socket, whose completion runs `socket_close_done_cb`. -/
structure CloseEvt where
  which : Which
  handle : HandleKind
  deriving DecidableEq, Repr

/-- A collaborator callback invocation (the protocol hook called and the
socket argument it is given). -/
inductive CollabCall where
  | read_done (w : Which)
  | write_done (w : Which)
  | outgoing_connected (w : Which)
  | getaddrinfo_done (w : Which)
  | timeout_expire_done (w : Which)
  deriving DecidableEq, Repr

/-- `struct socket_ctx`: the per-socket state the claims observe.
`timer_running` models whether the idle timer is armed (`uv_timer_start` /
`uv_timer_stop`); `uv_reading` models whether `uv_read_start` is active.
The buffer, the uv handles themselves and the pending request objects are
not observed by any claim and are left unmodelled. -/
structure socket_ctx where
  rdstate : SocketState
  wrstate : SocketState
  result : Int
  timer_running : Bool
  uv_reading : Bool
  resolved : Option AddrFamily
  deriving DecidableEq, Repr

/-- `struct tunnel_ctx`: the per-session state.  `close_requests` records
the `uv_close` calls issued so far (each will complete later as a
`CloseEvt`); `dying_calls` counts invocations of the optional
`tunnel_dying` hook; `freed` records that `tunnel_release` reached zero and
released all context memory.  The `has_*` flags model which collaborator
function pointers are set; `is_on_the_fly` models the collaborator's
(stable) answer to `tunnel_is_on_the_fly`. -/
structure tunnel_ctx where
  incoming : socket_ctx
  outgoing : socket_ctx
  ref_count : Int
  terminated : Bool
  getaddrinfo_pending : Bool
  cancel_requested : Bool
  close_requests : List CloseEvt
  dying_calls : Nat
  freed : Bool
  is_on_the_fly : Bool
  has_dying : Bool
  has_timeout_expire_done : Bool
  has_read_done : Bool
  has_write_done : Bool
  has_outgoing_connected_done : Bool
  has_getaddrinfo_done : Bool
  deriving DecidableEq, Repr

/-- Select one of the session's two sockets (the `CONTAINER_OF` lookup of
the C callbacks resolves a handle to its `socket_ctx`). -/
def getSock (t : tunnel_ctx) : Which → socket_ctx
  | Which.incoming => t.incoming
  | Which.outgoing => t.outgoing

/-- Write back one of the session's two sockets. -/
def setSock (t : tunnel_ctx) : Which → socket_ctx → tunnel_ctx
  | Which.incoming, c => { t with incoming := c }
  | Which.outgoing, c => { t with outgoing := c }

/-- Apply a field update to one of the session's two sockets. -/
def updateSock (t : tunnel_ctx) (w : Which) (f : socket_ctx → socket_ctx) : tunnel_ctx :=
  setSock t w (f (getSock t w))

/-- Linux values of the libuv error codes the source distinguishes; the
claims depend only on their identity, not on the numbers. -/
def UV_ECANCELED : Int := -125

/-- `UV_ECONNREFUSED` (Linux value). -/
def UV_ECONNREFUSED : Int := -111

/-- `UV_ECONNRESET` (Linux value). -/
def UV_ECONNRESET : Int := -104

/-- `UV_ETIMEDOUT` (Linux value). -/
def UV_ETIMEDOUT : Int := -110

/-- `UV_EOF`. -/
def UV_EOF : Int := -4095

/-- `tunnel_is_dead` from `src/client/tunnel.c`. -/
def tunnel_is_dead (t : tunnel_ctx) : Bool :=
  t.terminated

/-- `tunnel_add_ref` from `src/client/tunnel.c`. -/
def tunnel_add_ref (t : tunnel_ctx) : tunnel_ctx :=
  { t with ref_count := t.ref_count + 1 }

/-- `tunnel_release` from `src/client/tunnel.c`: decrement the reference
count; when it reaches zero, invoke the optional `tunnel_dying` hook and
free both sockets' buffers, both socket contexts and the tunnel itself
(modelled by `freed := true`). -/
def tunnel_release (t : tunnel_ctx) : tunnel_ctx :=
  let t1 := { t with ref_count := t.ref_count - 1 }
  if t1.ref_count = 0 then
    let t2 := if t1.has_dying then { t1 with dying_calls := t1.dying_calls + 1 } else t1
    { t2 with freed := true }
  else t1

/-- `socket_timer_start` from `src/client/tunnel.c` (`uv_timer_start` with
the idle timeout). -/
def socket_timer_start (t : tunnel_ctx) (w : Which) : tunnel_ctx :=
  updateSock t w (fun c => { c with timer_running := true })

/-- `socket_timer_stop` from `src/client/tunnel.c` (`uv_timer_stop`). -/
def socket_timer_stop (t : tunnel_ctx) (w : Which) : tunnel_ctx :=
  updateSock t w (fun c => { c with timer_running := false })

/-- `uv_close(handle, socket_close_done_cb)`: record one asynchronous
close request; its completion will be delivered later as a `CloseEvt`. -/
def uv_close_request (t : tunnel_ctx) (e : CloseEvt) : tunnel_ctx :=
  { t with close_requests := t.close_requests ++ [e] }

/-- `socket_close` from `src/client/tunnel.c`: assert neither state is
already `socket_dead`, force both to `socket_dead`, then, for each of the
two owned resources in turn (socket handle, then timer handle), take a
reference and request its asynchronous close (`uv_close` with
`socket_close_done_cb`). -/
def socket_close (t : tunnel_ctx) (w : Which) : Option tunnel_ctx :=
  if (getSock t w).rdstate = SocketState.socket_dead ∨
      (getSock t w).wrstate = SocketState.socket_dead then
    none
  else
    some (uv_close_request
      (tunnel_add_ref
        (uv_close_request
          (tunnel_add_ref
            (setSock t w { getSock t w with
              rdstate := SocketState.socket_dead
              wrstate := SocketState.socket_dead }))
          ⟨w, HandleKind.socket_handle⟩))
      ⟨w, HandleKind.timer_handle⟩)

/-- `socket_close_done_cb` from `src/client/tunnel.c`: the completion of
one asynchronous close recovers the socket from the handle and releases
one reference on the owning tunnel. -/
def socket_close_done_cb (t : tunnel_ctx) (_e : CloseEvt) : tunnel_ctx :=
  tunnel_release t

/-- Deliver a sequence of asynchronous close completions in the given
order. -/
def run_close_completions (t : tunnel_ctx) (evs : List CloseEvt) : tunnel_ctx :=
  evs.foldl socket_close_done_cb t

/-- The `uv_cancel` step of `tunnel_shutdown`: when a getaddrinfo request
is pending, request its best-effort cancellation (the completion callback
still runs). -/
def shutdown_cancel_step (t : tunnel_ctx) : tunnel_ctx :=
  if t.getaddrinfo_pending then { t with cancel_requested := true } else t

/-- `tunnel_shutdown` from `src/client/tunnel.c`: a no-op on a dead
tunnel; otherwise best-effort-cancel a pending getaddrinfo request
(`uv_cancel`; the completion still runs), close both sockets, and set
`terminated`. -/
def tunnel_shutdown (t : tunnel_ctx) : Option tunnel_ctx :=
  if tunnel_is_dead t then some t
  else
    (socket_close (shutdown_cancel_step t) Which.incoming).bind fun t2 =>
      (socket_close t2 Which.outgoing).map fun t3 => { t3 with terminated := true }

/-- `socket_timer_expire_cb` from `src/client/tunnel.c`: record
`UV_ETIMEDOUT` on the socket (before the dead check), then, on a live
tunnel, invoke the optional `tunnel_timeout_expire_done` hook and shut the
tunnel down. -/
def socket_timer_expire_cb (t : tunnel_ctx) (w : Which) : Option (tunnel_ctx × List CollabCall) :=
  let t1 := updateSock t w (fun c => { c with result := UV_ETIMEDOUT })
  if tunnel_is_dead t1 then some (t1, [])
  else
    let log := if t1.has_timeout_expire_done then [CollabCall.timeout_expire_done w] else []
    (tunnel_shutdown t1).map (fun t2 => (t2, log))

/-- `socket_connect_done_cb` from `src/client/tunnel.c`: record the status
on the socket (before the dead check); on a live tunnel stop the idle
timer; `UV_ECANCELED` or `UV_ECONNREFUSED` shuts the tunnel down with no
further callback; otherwise assert the `tunnel_outgoing_connected_done`
hook and invoke it. -/
def socket_connect_done_cb (t : tunnel_ctx) (w : Which) (status : Int) :
    Option (tunnel_ctx × List CollabCall) :=
  let t1 := updateSock t w (fun c => { c with result := status })
  if tunnel_is_dead t1 then some (t1, [])
  else
    let t2 := socket_timer_stop t1 w
    if status = UV_ECANCELED ∨ status = UV_ECONNREFUSED then
      (tunnel_shutdown t2).map (fun t3 => (t3, []))
    else
      if t2.has_outgoing_connected_done = false then none
      else some (t2, [CollabCall.outgoing_connected w])

/-- `socket_read` from `src/client/tunnel.c`: assert the read state is
`socket_stop`, start reading (`uv_read_start`), move the read state to
`socket_busy` and arm the idle timer. -/
def socket_read (t : tunnel_ctx) (w : Which) : Option tunnel_ctx :=
  if (getSock t w).rdstate ≠ SocketState.socket_stop then none
  else
    let t1 := updateSock t w
      (fun c => { c with uv_reading := true, rdstate := SocketState.socket_busy })
    some (socket_timer_start t1 w)

/-- `socket_read_done_cb` from `src/client/tunnel.c`: a no-op on a dead
tunnel; otherwise stop the underlying read when not in streaming mode, stop
the idle timer, ignore a zero-length completion, shut the tunnel down on a
negative completion (asserting it is `UV_EOF` or `UV_ECONNRESET`), and on
data assert the busy read state (when not streaming), move the read state
to `socket_done`, record the byte count and invoke `tunnel_read_done`. -/
def socket_read_done_cb (t : tunnel_ctx) (w : Which) (nread : Int) :
    Option (tunnel_ctx × List CollabCall) :=
  if tunnel_is_dead t then some (t, [])
  else
    let t1 := if t.is_on_the_fly then t
      else updateSock t w (fun c => { c with uv_reading := false })
    let t2 := socket_timer_stop t1 w
    if nread = 0 then some (t2, [])
    else if nread < 0 then
      if nread = UV_EOF ∨ nread = UV_ECONNRESET then
        (tunnel_shutdown t2).map (fun t3 => (t3, []))
      else none
    else
      if t2.is_on_the_fly = false ∧ (getSock t2 w).rdstate ≠ SocketState.socket_busy then none
      else
        let t3 := updateSock t2 w
          (fun c => { c with rdstate := SocketState.socket_done, result := nread })
        if t3.has_read_done = false then none
        else some (t3, [CollabCall.read_done w])

/-- `socket_read_stop` from `src/client/tunnel.c`: unconditionally stop
the underlying read (`uv_read_stop`) and reset the read state to
`socket_stop`. -/
def socket_read_stop (t : tunnel_ctx) (w : Which) : tunnel_ctx :=
  updateSock t w (fun c => { c with uv_reading := false, rdstate := SocketState.socket_stop })

/-- `socket_getaddrinfo` from `src/client/tunnel.c`: issue the
asynchronous lookup, arm the idle timer and set the pending flag. -/
def socket_getaddrinfo (t : tunnel_ctx) (w : Which) : tunnel_ctx :=
  { socket_timer_start t w with getaddrinfo_pending := true }

/-- `socket_getaddrinfo_done_cb` from `src/client/tunnel.c`: record the
status on the socket and clear the pending flag (both before the dead
check); on a live tunnel stop the idle timer, on success copy the first
answer's IPv4 or IPv6 address (any other family is unreachable), then
assert the `tunnel_getaddrinfo_done` hook and invoke it. -/
def socket_getaddrinfo_done_cb (t : tunnel_ctx) (w : Which) (status : Int)
    (ai : Option AddrFamily) : Option (tunnel_ctx × List CollabCall) :=
  let t1 := updateSock t w (fun c => { c with result := status })
  let t2 := { t1 with getaddrinfo_pending := false }
  if tunnel_is_dead t2 then some (t2, [])
  else
    let t3 := socket_timer_stop t2 w
    let t4opt : Option tunnel_ctx :=
      if status = 0 then
        match ai with
        | some AddrFamily.af_inet =>
          some (updateSock t3 w (fun c => { c with resolved := some AddrFamily.af_inet }))
        | some AddrFamily.af_inet6 =>
          some (updateSock t3 w (fun c => { c with resolved := some AddrFamily.af_inet6 }))
        | _ => none
      else some t3
    t4opt.bind fun t4 =>
      if t4.has_getaddrinfo_done = false then none
      else some (t4, [CollabCall.getaddrinfo_done w])

/-- `socket_write` from `src/client/tunnel.c`: assert (when not in
streaming mode) that the write state is `socket_stop` or `socket_done`,
move it to `socket_busy`, issue the write and arm the idle timer. -/
def socket_write (t : tunnel_ctx) (w : Which) : Option tunnel_ctx :=
  if t.is_on_the_fly = false ∧
      ¬((getSock t w).wrstate = SocketState.socket_stop ∨
        (getSock t w).wrstate = SocketState.socket_done) then none
  else
    let t1 := updateSock t w (fun c => { c with wrstate := SocketState.socket_busy })
    some (socket_timer_start t1 w)

/-- `socket_write_done_cb` from `src/client/tunnel.c`: free the request, a
no-op on a dead tunnel; otherwise stop the idle timer, shut the tunnel
down on `UV_ECANCELED`, and otherwise assert the busy write state (when
not streaming), move the write state to `socket_done`, record the status
and invoke `tunnel_write_done`. -/
def socket_write_done_cb (t : tunnel_ctx) (w : Which) (status : Int) :
    Option (tunnel_ctx × List CollabCall) :=
  if tunnel_is_dead t then some (t, [])
  else
    let t1 := socket_timer_stop t w
    if status = UV_ECANCELED then
      (tunnel_shutdown t1).map (fun t2 => (t2, []))
    else
      if t1.is_on_the_fly = false ∧ (getSock t1 w).wrstate ≠ SocketState.socket_busy then none
      else
        let t2 := updateSock t1 w
          (fun c => { c with wrstate := SocketState.socket_done, result := status })
        if t2.has_write_done = false then none
        else some (t2, [CollabCall.write_done w])

/-- A baseline idle socket used by the concrete witnesses. -/
def sockIdle : socket_ctx :=
  { rdstate := SocketState.socket_stop, wrstate := SocketState.socket_stop,
    result := 0, timer_running := false, uv_reading := false, resolved := none }

/-- A freshly initialized live tunnel (all collaborator hooks set, not in
streaming mode) used by the concrete witnesses. -/
def tunFresh : tunnel_ctx :=
  { incoming := sockIdle, outgoing := sockIdle, ref_count := 0, terminated := false,
    getaddrinfo_pending := false, cancel_requested := false, close_requests := [],
    dying_calls := 0, freed := false, is_on_the_fly := false, has_dying := true,
    has_timeout_expire_done := true, has_read_done := true, has_write_done := true,
    has_outgoing_connected_done := true, has_getaddrinfo_done := true }

/-- A socket whose two owned resources have been closed. -/
def sockDead : socket_ctx :=
  { sockIdle with rdstate := SocketState.socket_dead, wrstate := SocketState.socket_dead }

/-- A tunnel whose terminated flag is already set (first shutdown ran before
its sockets were closed in this reduced fixture). -/
def tunTerminated : tunnel_ctx :=
  { tunFresh with terminated := true }

/-- The state after `socket_close` of the incoming socket of `tunFresh`. -/
def tunIncClosed : tunnel_ctx :=
  { tunFresh with
      incoming := sockDead
      ref_count := 2
      close_requests := [⟨Which.incoming, HandleKind.socket_handle⟩,
        ⟨Which.incoming, HandleKind.timer_handle⟩] }

/-- The state after `tunnel_shutdown` of `tunFresh`: both sockets closed,
four asynchronous closes outstanding, terminated. -/
def tunClosed : tunnel_ctx :=
  { tunFresh with
      incoming := sockDead
      outgoing := sockDead
      ref_count := 4
      terminated := true
      close_requests := [⟨Which.incoming, HandleKind.socket_handle⟩,
        ⟨Which.incoming, HandleKind.timer_handle⟩,
        ⟨Which.outgoing, HandleKind.socket_handle⟩,
        ⟨Which.outgoing, HandleKind.timer_handle⟩] }

/-- The four close completions of `tunClosed`, delivered in an order other
than the one in which they were requested. -/
def evs4 : List CloseEvt :=
  [⟨Which.outgoing, HandleKind.timer_handle⟩,
   ⟨Which.incoming, HandleKind.socket_handle⟩,
   ⟨Which.outgoing, HandleKind.socket_handle⟩,
   ⟨Which.incoming, HandleKind.timer_handle⟩]

/-- A live tunnel with four outstanding close operations. -/
def tunRef4 : tunnel_ctx :=
  { tunFresh with ref_count := 4 }

/-! ## Helper lemmas for the codec proofs -/

/-- Reading past a prefix of an appended buffer skips the prefix. -/
theorem getD_append_length_add (pre rest : List Nat) (k : Nat) :
    (pre ++ rest).getD (pre.length + k) 0 = rest.getD k 0 := by
  induction pre with
  | nil => simp
  | cons a pre ih =>
    have h : (a :: pre).length + k = (pre.length + k) + 1 := by
      simp [Nat.succ_add]
    rw [h]
    show (a :: (pre ++ rest)).getD ((pre.length + k) + 1) 0 = rest.getD k 0
    rw [List.getD_cons_succ, ih]

/-- `readBytes` over the `getD` oracle of `pre ++ (mid ++ post)`, started
at the end of `pre` and run for the length of `mid`, recovers `mid`. -/
theorem readBytes_append (pre mid post : List Nat) :
    readBytes (fun i => (pre ++ (mid ++ post)).getD i 0) pre.length mid.length = mid := by
  induction mid generalizing pre with
  | nil => rfl
  | cons x mid ih =>
    show (pre ++ (x :: mid ++ post)).getD pre.length 0 ::
        readBytes (fun i => (pre ++ (x :: mid ++ post)).getD i 0) (pre.length + 1) mid.length
      = x :: mid
    have hhead : (pre ++ (x :: mid ++ post)).getD pre.length 0 = x := by
      have := getD_append_length_add pre (x :: mid ++ post) 0
      simpa using this
    have htail := ih (pre ++ [x])
    rw [hhead]
    refine congrArg (x :: ·) ?_
    have hlist : (pre ++ [x]) ++ (mid ++ post) = pre ++ (x :: mid ++ post) := by
      simp
    have hlen : (pre ++ [x]).length = pre.length + 1 := by simp
    rw [hlist, hlen] at htail
    exact htail

/-! ## Claims about the address codec -/

/-- C10: null/empty guards of the codec's public interface.
`socks5_address_parse` returns `false` without reading any input byte
(empty read trace) when the data pointer is NULL, the input length is
zero, or the output pointer is NULL; `socks5_address_binary` returns NULL,
having written no byte, when the address pointer is NULL, the buffer
pointer is NULL, or the capacity is zero. -/
theorem socks5_codec_null_guards :
    (∀ len addrOpt, socks5_address_parse none len addrOpt = (false, addrOpt, [])) ∧
    (∀ dataOpt addrOpt, socks5_address_parse dataOpt 0 addrOpt = (false, addrOpt, [])) ∧
    (∀ dataOpt len, socks5_address_parse dataOpt len none = (false, none, [])) ∧
    (∀ buffer size, socks5_address_binary none buffer size = none) ∧
    (∀ addrOpt size, socks5_address_binary addrOpt none size = none) ∧
    (∀ addrOpt buffer, socks5_address_binary addrOpt buffer 0 = none) := by
  refine ⟨?_, ?_, ?_, ?_, ?_, ?_⟩
  · intro len addrOpt
    cases addrOpt <;> rfl
  · intro dataOpt addrOpt
    cases dataOpt <;> cases addrOpt <;> rfl
  · intro dataOpt len
    cases dataOpt <;> rfl
  · intro buffer size
    cases buffer <;> rfl
  · intro addrOpt size
    cases addrOpt <;> rfl
  · intro addrOpt buffer
    cases addrOpt <;> cases buffer <;> rfl

/-- C2 (code bug): on the one-byte input `[0x03]` — only a domain-name kind
tag, no length byte — `socks5_address_parse` does return failure, but its
read trace is `[0, 1]`: it reads the declared-length byte at index 1, one
byte past the supplied buffer (`len = 1`), before validating the length. -/
theorem socks5_address_parse_domain_tag_reads_past_buffer :
    (socks5_address_parse (some fun _ => 3) 1
        (some ⟨0, [], [], [], 0⟩)).1 = false ∧
    (socks5_address_parse (some fun _ => 3) 1
        (some ⟨0, [], [], [], 0⟩)).2.2 = [0, 1] ∧
    ¬ (1 : Nat) < 1 := by
  refine ⟨rfl, rfl, by decide⟩

/-- C3 counterexample: parse failure is not atomic.  On input `[9, ...]`
(unrecognized kind tag) with a non-trivial initial output value,
`socks5_address_parse` fails but overwrites the output's kind field with
`SOCKS5_ADDRTYPE_INVALID`, so the output value is modified. -/
theorem socks5_address_parse_unknown_tag_writes_invalid :
    (socks5_address_parse (some fun _ => 9) 9
        (some ⟨1, [5, 6, 7, 8], [], [], 80⟩)).1 = false ∧
    (socks5_address_parse (some fun _ => 9) 9
        (some ⟨1, [5, 6, 7, 8], [], [], 80⟩)).2.1 ≠
      some ⟨1, [5, 6, 7, 8], [], [], 80⟩ := by
  refine ⟨rfl, by decide⟩

/-- C3 amended, with the failure cause attributed: when
`socks5_address_parse` fails on a recognized kind tag — i.e. because the
declared length exceeds the remaining buffer — the output address is left
completely unmodified, as it is under the NULL/empty-input guards; exactly
when it fails because the kind tag is unrecognized, it modifies the output
only by setting its kind field to `SOCKS5_ADDRTYPE_INVALID`. -/
theorem socks5_address_parse_failure_output (dataOpt : Option (Nat → Nat)) (len : Nat)
    (addrOpt : Option socks5_address)
    (hfail : (socks5_address_parse dataOpt len addrOpt).1 = false) :
    (∀ data, dataOpt = some data →
      (data 0 = SOCKS5_ADDRTYPE_IPV4 ∨ data 0 = SOCKS5_ADDRTYPE_DOMAINNAME ∨
        data 0 = SOCKS5_ADDRTYPE_IPV6) →
      (socks5_address_parse dataOpt len addrOpt).2.1 = addrOpt) ∧
    ((dataOpt = none ∨ len = 0 ∨ addrOpt = none) →
      (socks5_address_parse dataOpt len addrOpt).2.1 = addrOpt) ∧
    (∀ data a, dataOpt = some data → addrOpt = some a → len ≠ 0 →
      ¬(data 0 = SOCKS5_ADDRTYPE_IPV4 ∨ data 0 = SOCKS5_ADDRTYPE_DOMAINNAME ∨
        data 0 = SOCKS5_ADDRTYPE_IPV6) →
      (socks5_address_parse dataOpt len addrOpt).2.1 =
        some { a with addr_type := SOCKS5_ADDRTYPE_INVALID }) := by
  refine ⟨?_, ?_, ?_⟩
  · intro data hdata htag
    subst hdata
    match addrOpt with
    | none => rfl
    | some addr =>
      by_cases hlen : len = 0
      · simp [socks5_address_parse, hlen]
      · simp only [socks5_address_parse, if_neg hlen] at hfail ⊢
        rcases htag with h1 | h3 | h5
        · by_cases h2 : len < 1 + 4 + 2
          · simp [socks5_address_parseCore, SOCKS5_ADDRTYPE_IPV4, h1, h2]
          · exfalso
            simp [socks5_address_parseCore, SOCKS5_ADDRTYPE_IPV4, h1, h2] at hfail
        · by_cases h4 : len < 1 + 1 + data 1 + 2
          · simp [socks5_address_parseCore, SOCKS5_ADDRTYPE_IPV4,
              SOCKS5_ADDRTYPE_DOMAINNAME, h3, h4]
          · exfalso
            simp [socks5_address_parseCore, SOCKS5_ADDRTYPE_IPV4,
              SOCKS5_ADDRTYPE_DOMAINNAME, h3, h4] at hfail
        · by_cases h6 : len < 1 + 16 + 2
          · simp [socks5_address_parseCore, SOCKS5_ADDRTYPE_IPV4,
              SOCKS5_ADDRTYPE_DOMAINNAME, SOCKS5_ADDRTYPE_IPV6, h5, h6]
          · exfalso
            simp [socks5_address_parseCore, SOCKS5_ADDRTYPE_IPV4,
              SOCKS5_ADDRTYPE_DOMAINNAME, SOCKS5_ADDRTYPE_IPV6, h5, h6] at hfail
  · intro hguard
    rcases hguard with h | h | h
    · subst h
      cases addrOpt <;> rfl
    · subst h
      cases dataOpt <;> cases addrOpt <;> rfl
    · subst h
      cases dataOpt <;> rfl
  · intro data a hdata haddr hlen htag
    subst hdata
    subst haddr
    push_neg at htag
    obtain ⟨hn1, hn3, hn5⟩ := htag
    simp [socks5_address_parse, socks5_address_parseCore, hlen, hn1, hn3, hn5]

/-- C3 amended, witness: the attributed statement applied to two concrete
failures — a too-short IPv4 input, whose output is returned unmodified,
and an unrecognized-tag input, whose output gets only its kind field set
to invalid. -/
theorem socks5_address_parse_failure_output_witness :
    (socks5_address_parse (some fun _ => 1) 3 (some ⟨1, [5], [], [], 80⟩)).1 = false ∧
    (socks5_address_parse (some fun _ => 1) 3 (some ⟨1, [5], [], [], 80⟩)).2.1 =
      some ⟨1, [5], [], [], 80⟩ ∧
    (socks5_address_parse (some fun _ => 7) 9 (some ⟨1, [5], [], [], 80⟩)).1 = false ∧
    (socks5_address_parse (some fun _ => 7) 9 (some ⟨1, [5], [], [], 80⟩)).2.1 =
      some { (⟨1, [5], [], [], 80⟩ : socks5_address) with
        addr_type := SOCKS5_ADDRTYPE_INVALID } := by
  have hA := (socks5_address_parse_failure_output (some fun _ => 1) 3
      (some ⟨1, [5], [], [], 80⟩) rfl).1 (fun _ => 1) rfl (Or.inl rfl)
  have hB := (socks5_address_parse_failure_output (some fun _ => 7) 9
      (some ⟨1, [5], [], [], 80⟩) rfl).2.2 (fun _ => 7) ⟨1, [5], [], [], 80⟩ rfl rfl
      (by decide) (by decide)
  exact ⟨rfl, hA, rfl, hB⟩

/-- Evaluation of `socks5_address_parseCore` on an input whose first byte is
the IPv4 tag and whose declared length suffices. -/
theorem parseCore_ipv4_eval (data : Nat → Nat) (len : Nat) (addr0 : socks5_address)
    (h0 : data 0 = 1) (hlen : ¬ len < 1 + 4 + 2) :
    socks5_address_parseCore data len addr0 =
      (true,
        { addr0 with
            addr_type := SOCKS5_ADDRTYPE_IPV4
            ipv4 := readBytes data 1 4
            port := data 5 * 256 + data 6 },
        [0] ++ List.range' 1 4 ++ [5, 6]) := by
  simp [socks5_address_parseCore, SOCKS5_ADDRTYPE_IPV4, h0, hlen]

/-- Evaluation of `socks5_address_parseCore` on an input whose first byte is
the domain tag, whose second byte is the declared name length `n`, and whose
declared length suffices. -/
theorem parseCore_domain_eval (data : Nat → Nat) (len n : Nat) (addr0 : socks5_address)
    (h0 : data 0 = 3) (h1 : data 1 = n) (hlen : ¬ len < 1 + 1 + n + 2) :
    socks5_address_parseCore data len addr0 =
      (true,
        { addr0 with
            addr_type := SOCKS5_ADDRTYPE_DOMAINNAME
            domainname := (readBytes data 2 n).takeWhile (fun b => b ≠ 0)
            port := data (2 + n) * 256 + data (2 + n + 1) },
        [0, 1] ++ List.range' 2 n ++ [2 + n, 2 + n + 1]) := by
  subst h1
  simp [socks5_address_parseCore, SOCKS5_ADDRTYPE_IPV4, SOCKS5_ADDRTYPE_DOMAINNAME, h0, hlen]

/-- Evaluation of `socks5_address_parseCore` on an input whose first byte is
the IPv6 tag and whose declared length suffices. -/
theorem parseCore_ipv6_eval (data : Nat → Nat) (len : Nat) (addr0 : socks5_address)
    (h0 : data 0 = 4) (hlen : ¬ len < 1 + 16 + 2) :
    socks5_address_parseCore data len addr0 =
      (true,
        { addr0 with
            addr_type := SOCKS5_ADDRTYPE_IPV6
            ipv6 := readBytes data 1 16
            port := data 17 * 256 + data 18 },
        [0] ++ List.range' 1 16 ++ [17, 18]) := by
  simp [socks5_address_parseCore, SOCKS5_ADDRTYPE_IPV4, SOCKS5_ADDRTYPE_DOMAINNAME,
    SOCKS5_ADDRTYPE_IPV6, h0, hlen]

/-- C1: address codec round-trip.  For every valid `socks5_address` value
and every output capacity at least `socks5_address_size` of the address,
`socks5_address_binary` succeeds, writes exactly `socks5_address_size`
bytes, and `socks5_address_parse` on those bytes succeeds and returns the
original address kind, the original payload of that kind, and the original
port, whatever the previous contents of the output structure were. -/
theorem socks5_address_roundtrip (addr addr0 : socks5_address) (cap : Nat)
    (hv : socks5_address_valid addr)
    (hcap : socks5_address_size (some addr) ≤ cap) :
    ∃ out a1,
      socks5_address_binary (some addr) (some ()) cap = some out ∧
      out.length = socks5_address_size (some addr) ∧
      (socks5_address_parse (some fun i => out.getD i 0) out.length (some addr0)).1 = true ∧
      (socks5_address_parse (some fun i => out.getD i 0) out.length (some addr0)).2.1 = some a1 ∧
      a1.addr_type = addr.addr_type ∧ a1.port = addr.port ∧
      (addr.addr_type = SOCKS5_ADDRTYPE_IPV4 → a1.ipv4 = addr.ipv4) ∧
      (addr.addr_type = SOCKS5_ADDRTYPE_DOMAINNAME → a1.domainname = addr.domainname) ∧
      (addr.addr_type = SOCKS5_ADDRTYPE_IPV6 → a1.ipv6 = addr.ipv6) := by
  obtain ⟨hport, hcase⟩ := hv
  rcases hcase with ⟨htag, hlen4, hbytes⟩ | ⟨htag, hlenD, hbytes⟩ | ⟨htag, hlen16, hbytes⟩
  · -- IPv4
    have hsize : socks5_address_size (some addr) = 7 := by
      simp [socks5_address_size, htag, SOCKS5_ADDRTYPE_IPV4]
    rw [hsize] at hcap
    have hc0 : ¬ cap = 0 := by omega
    have hclt : ¬ cap < 7 := by omega
    set hi := addr.port / 256 % 256 with hhi
    set lo := addr.port % 256 with hlo
    set out : List Nat := 1 :: (addr.ipv4 ++ [hi, lo]) with hout
    have hbin : socks5_address_binary (some addr) (some ()) cap = some out := by
      simp [socks5_address_binary, hsize, hc0, hclt, htag, SOCKS5_ADDRTYPE_IPV4, hout]
    have houtlen : out.length = 7 := by
      simp [hout, hlen4]
    have hsplit : out = (1 :: addr.ipv4) ++ [hi, lo] := by
      rw [hout]; simp
    have hd0 : out.getD 0 0 = 1 := rfl
    have hrb : readBytes (fun i => out.getD i 0) 1 4 = addr.ipv4 := by
      have h := readBytes_append [1] addr.ipv4 [hi, lo]
      rw [hlen4] at h
      simpa [hout] using h
    have h5 : out.getD 5 0 = hi := by
      rw [hsplit]
      have hidx : (5 : Nat) = (1 :: addr.ipv4).length + 0 := by simp [hlen4]
      rw [hidx, getD_append_length_add]
      rfl
    have h6 : out.getD 6 0 = lo := by
      rw [hsplit]
      have hidx : (6 : Nat) = (1 :: addr.ipv4).length + 1 := by simp [hlen4]
      rw [hidx, getD_append_length_add]
      rfl
    have hportval : hi * 256 + lo = addr.port := by
      rw [hhi, hlo]; omega
    use out
    use { addr0 with addr_type := SOCKS5_ADDRTYPE_IPV4, ipv4 := addr.ipv4, port := addr.port }
    refine ⟨hbin, by rw [houtlen, hsize], ?_, ?_, by simp [htag], by simp, ?_, ?_, ?_⟩
    · rw [houtlen]
      simp only [socks5_address_parse]
      rw [if_neg (by omega : ¬ (7 : Nat) = 0)]
      rw [parseCore_ipv4_eval (fun i => out.getD i 0) 7 addr0 hd0 (by omega)]
    · rw [houtlen]
      simp only [socks5_address_parse]
      rw [if_neg (by omega : ¬ (7 : Nat) = 0)]
      rw [parseCore_ipv4_eval (fun i => out.getD i 0) 7 addr0 hd0 (by omega)]
      simp only [hrb, h5, h6, hportval]
    · intro _; rfl
    · intro h; rw [htag] at h; exact absurd h (by decide)
    · intro h; rw [htag] at h; exact absurd h (by decide)
  · -- domain name
    set n := addr.domainname.length with hnn
    have hn255 : n ≤ 255 := by
      simpa [SOCKS5_DOMAINNAME_BUFSIZE] using hlenD
    have hsize : socks5_address_size (some addr) = 1 + 1 + n + 2 := by
      simp [socks5_address_size, htag, SOCKS5_ADDRTYPE_DOMAINNAME, SOCKS5_ADDRTYPE_IPV4]
    rw [hsize] at hcap
    have hc0 : ¬ cap = 0 := by omega
    have hclt : ¬ cap < 1 + 1 + n + 2 := by omega
    set hi := addr.port / 256 % 256 with hhi
    set lo := addr.port % 256 with hlo
    have hmod : n % 256 = n := Nat.mod_eq_of_lt (by omega)
    set out : List Nat := 3 :: n :: (addr.domainname ++ [hi, lo]) with hout
    have hbin : socks5_address_binary (some addr) (some ()) cap = some out := by
      simp [socks5_address_binary, hsize, hc0, hclt, htag, SOCKS5_ADDRTYPE_DOMAINNAME,
        SOCKS5_ADDRTYPE_IPV4, hmod, hout]
    have houtlen : out.length = n + 4 := by
      rw [hout]
      simp [← hnn]
    have hsplit : out = (3 :: n :: addr.domainname) ++ [hi, lo] := by
      rw [hout]; simp
    have hd0 : out.getD 0 0 = 3 := rfl
    have hd1 : out.getD 1 0 = n := rfl
    have hrb : readBytes (fun i => out.getD i 0) 2 n = addr.domainname := by
      have h := readBytes_append [3, n] addr.domainname [hi, lo]
      simpa [hout, ← hnn] using h
    have htw : addr.domainname.takeWhile (fun b => b ≠ 0) = addr.domainname := by
      refine List.takeWhile_eq_self_iff.mpr ?_
      intro b hb
      simpa using (hbytes b hb).1.ne'
    have h2n : out.getD (2 + n) 0 = hi := by
      rw [hsplit]
      have hidx : 2 + n = (3 :: n :: addr.domainname).length + 0 := by
        simp [← hnn]
        omega
      rw [hidx, getD_append_length_add]
      rfl
    have h3n : out.getD (2 + n + 1) 0 = lo := by
      rw [hsplit]
      have hidx : 2 + n + 1 = (3 :: n :: addr.domainname).length + 1 := by
        simp [← hnn]
        omega
      rw [hidx, getD_append_length_add]
      rfl
    have hportval : hi * 256 + lo = addr.port := by
      rw [hhi, hlo]; omega
    use out
    use { addr0 with
            addr_type := SOCKS5_ADDRTYPE_DOMAINNAME
            domainname := addr.domainname
            port := addr.port }
    refine ⟨hbin, by rw [houtlen, hsize]; omega, ?_, ?_, by simp [htag], by simp, ?_, ?_, ?_⟩
    · rw [houtlen]
      simp only [socks5_address_parse]
      rw [if_neg (by omega : ¬ n + 4 = 0)]
      rw [parseCore_domain_eval (fun i => out.getD i 0) (n + 4) n addr0 hd0 hd1 (by omega)]
    · rw [houtlen]
      simp only [socks5_address_parse]
      rw [if_neg (by omega : ¬ n + 4 = 0)]
      rw [parseCore_domain_eval (fun i => out.getD i 0) (n + 4) n addr0 hd0 hd1 (by omega)]
      simp only [hrb, htw, h2n, h3n, hportval]
    · intro h; rw [htag] at h; exact absurd h (by decide)
    · intro _; rfl
    · intro h; rw [htag] at h; exact absurd h (by decide)
  · -- IPv6
    have hsize : socks5_address_size (some addr) = 19 := by
      simp [socks5_address_size, htag, SOCKS5_ADDRTYPE_IPV6, SOCKS5_ADDRTYPE_IPV4,
        SOCKS5_ADDRTYPE_DOMAINNAME]
    rw [hsize] at hcap
    have hc0 : ¬ cap = 0 := by omega
    have hclt : ¬ cap < 19 := by omega
    set hi := addr.port / 256 % 256 with hhi
    set lo := addr.port % 256 with hlo
    set out : List Nat := 4 :: (addr.ipv6 ++ [hi, lo]) with hout
    have hbin : socks5_address_binary (some addr) (some ()) cap = some out := by
      simp [socks5_address_binary, hsize, hc0, hclt, htag, SOCKS5_ADDRTYPE_IPV6,
        SOCKS5_ADDRTYPE_IPV4, SOCKS5_ADDRTYPE_DOMAINNAME, hout]
    have houtlen : out.length = 19 := by
      simp [hout, hlen16]
    have hsplit : out = (4 :: addr.ipv6) ++ [hi, lo] := by
      rw [hout]; simp
    have hd0 : out.getD 0 0 = 4 := rfl
    have hrb : readBytes (fun i => out.getD i 0) 1 16 = addr.ipv6 := by
      have h := readBytes_append [4] addr.ipv6 [hi, lo]
      rw [hlen16] at h
      simpa [hout] using h
    have h17 : out.getD 17 0 = hi := by
      rw [hsplit]
      have hidx : (17 : Nat) = (4 :: addr.ipv6).length + 0 := by simp [hlen16]
      rw [hidx, getD_append_length_add]
      rfl
    have h18 : out.getD 18 0 = lo := by
      rw [hsplit]
      have hidx : (18 : Nat) = (4 :: addr.ipv6).length + 1 := by simp [hlen16]
      rw [hidx, getD_append_length_add]
      rfl
    have hportval : hi * 256 + lo = addr.port := by
      rw [hhi, hlo]; omega
    use out
    use { addr0 with addr_type := SOCKS5_ADDRTYPE_IPV6, ipv6 := addr.ipv6, port := addr.port }
    refine ⟨hbin, by rw [houtlen, hsize], ?_, ?_, by simp [htag], by simp, ?_, ?_, ?_⟩
    · rw [houtlen]
      simp only [socks5_address_parse]
      rw [if_neg (by omega : ¬ (19 : Nat) = 0)]
      rw [parseCore_ipv6_eval (fun i => out.getD i 0) 19 addr0 hd0 (by omega)]
    · rw [houtlen]
      simp only [socks5_address_parse]
      rw [if_neg (by omega : ¬ (19 : Nat) = 0)]
      rw [parseCore_ipv6_eval (fun i => out.getD i 0) 19 addr0 hd0 (by omega)]
      simp only [hrb, h17, h18, hportval]
    · intro h; rw [htag] at h; exact absurd h (by decide)
    · intro h; rw [htag] at h; exact absurd h (by decide)
    · intro _; rfl

/-- C1 witness: the round-trip theorem applied to the spec's IPv4 scenario
`1.2.3.4:80` with capacity 7 and a scrap initial output value. -/
theorem socks5_address_roundtrip_witness :
    socks5_address_valid ⟨1, [1, 2, 3, 4], [], [], 80⟩ ∧
    socks5_address_size (some ⟨1, [1, 2, 3, 4], [], [], 80⟩) ≤ 7 ∧
    (∃ out a1,
      socks5_address_binary (some ⟨1, [1, 2, 3, 4], [], [], 80⟩) (some ()) 7 = some out ∧
      out.length = socks5_address_size (some ⟨1, [1, 2, 3, 4], [], [], 80⟩) ∧
      (socks5_address_parse (some fun i => out.getD i 0) out.length
          (some ⟨0, [], [], [], 0⟩)).1 = true ∧
      (socks5_address_parse (some fun i => out.getD i 0) out.length
          (some ⟨0, [], [], [], 0⟩)).2.1 = some a1 ∧
      a1.addr_type = (⟨1, [1, 2, 3, 4], [], [], 80⟩ : socks5_address).addr_type ∧
      a1.port = (⟨1, [1, 2, 3, 4], [], [], 80⟩ : socks5_address).port ∧
      ((⟨1, [1, 2, 3, 4], [], [], 80⟩ : socks5_address).addr_type = SOCKS5_ADDRTYPE_IPV4 →
        a1.ipv4 = (⟨1, [1, 2, 3, 4], [], [], 80⟩ : socks5_address).ipv4) ∧
      ((⟨1, [1, 2, 3, 4], [], [], 80⟩ : socks5_address).addr_type = SOCKS5_ADDRTYPE_DOMAINNAME →
        a1.domainname = (⟨1, [1, 2, 3, 4], [], [], 80⟩ : socks5_address).domainname) ∧
      ((⟨1, [1, 2, 3, 4], [], [], 80⟩ : socks5_address).addr_type = SOCKS5_ADDRTYPE_IPV6 →
        a1.ipv6 = (⟨1, [1, 2, 3, 4], [], [], 80⟩ : socks5_address).ipv6)) :=
  ⟨by decide, by decide,
    socks5_address_roundtrip ⟨1, [1, 2, 3, 4], [], [], 80⟩ ⟨0, [], [], [], 0⟩ 7
      (by decide) (by decide)⟩

/-! ## Helper lemmas for the tunnel proofs -/

/-- Evaluation of `tunnel_shutdown` on a live tunnel whose sockets are not
yet closed: both sockets are forced to `socket_dead`, four references are
taken, four asynchronous closes are requested, a pending getaddrinfo
request is cancelled, and the terminated flag is set. -/
theorem tunnel_shutdown_eval (t : tunnel_ctx) (hlive : t.terminated = false)
    (h1 : t.incoming.rdstate ≠ SocketState.socket_dead)
    (h2 : t.incoming.wrstate ≠ SocketState.socket_dead)
    (h3 : t.outgoing.rdstate ≠ SocketState.socket_dead)
    (h4 : t.outgoing.wrstate ≠ SocketState.socket_dead) :
    tunnel_shutdown t = some
      { t with
          incoming := { t.incoming with
            rdstate := SocketState.socket_dead
            wrstate := SocketState.socket_dead }
          outgoing := { t.outgoing with
            rdstate := SocketState.socket_dead
            wrstate := SocketState.socket_dead }
          ref_count := t.ref_count + 1 + 1 + 1 + 1
          cancel_requested := (t.getaddrinfo_pending || t.cancel_requested)
          close_requests := t.close_requests ++
            [⟨Which.incoming, HandleKind.socket_handle⟩,
             ⟨Which.incoming, HandleKind.timer_handle⟩,
             ⟨Which.outgoing, HandleKind.socket_handle⟩,
             ⟨Which.outgoing, HandleKind.timer_handle⟩]
          terminated := true } := by
  by_cases hp : t.getaddrinfo_pending <;>
    simp [tunnel_shutdown, tunnel_is_dead, shutdown_cancel_step, socket_close,
      uv_close_request, tunnel_add_ref, setSock, getSock, hlive, h1, h2, h3, h4, hp]

/-- Whenever `tunnel_shutdown` returns a tunnel, that tunnel's terminated
flag is set. -/
theorem shutdown_some_terminated (t t' : tunnel_ctx)
    (h : tunnel_shutdown t = some t') : t'.terminated = true := by
  unfold tunnel_shutdown at h
  by_cases hd : tunnel_is_dead t
  · rw [if_pos hd] at h
    obtain rfl : t = t' := by simpa using h
    simpa [tunnel_is_dead] using hd
  · rw [if_neg hd] at h
    obtain ⟨t2, hc1, h2⟩ := Option.bind_eq_some.mp h
    obtain ⟨t3, hc2, h3⟩ := Option.map_eq_some'.mp h2
    rw [← h3]

/-- While more references are held than completions are delivered,
delivering close completions only decrements the reference count: no
destruction, no `tunnel_dying` call, no free. -/
theorem run_close_completions_of_lt (evs : List CloseEvt) (t : tunnel_ctx)
    (h : (evs.length : Int) < t.ref_count) :
    run_close_completions t evs =
      { t with ref_count := t.ref_count - (evs.length : Int) } := by
  induction evs generalizing t with
  | nil =>
    simp [run_close_completions]
  | cons e rest ih =>
    have hne : ¬ (t.ref_count - 1 = 0) := by
      simp only [List.length_cons] at h
      push_cast at h
      omega
    have hrel : tunnel_release t = { t with ref_count := t.ref_count - 1 } := by
      simp [tunnel_release, hne]
    have h1 : ((rest.length : Int)) <
        ({ t with ref_count := t.ref_count - 1 } : tunnel_ctx).ref_count := by
      simp only [List.length_cons] at h
      push_cast at h ⊢
      omega
    show run_close_completions (tunnel_release t) rest = _
    rw [hrel, ih _ h1]
    have harith : t.ref_count - 1 - (rest.length : Int) =
        t.ref_count - (((e :: rest).length : Int)) := by
      simp only [List.length_cons]
      push_cast
      ring
    simp only [harith]

/-- Delivering exactly as many close completions as references are held
destroys the tunnel exactly once, at the last completion. -/
theorem run_close_completions_destroy (evs : List CloseEvt) (t : tunnel_ctx)
    (href : t.ref_count = (evs.length : Int)) (hpos : 0 < evs.length)
    (hdying : t.has_dying = true) (hcalls : t.dying_calls = 0) (hfreed : t.freed = false) :
    (run_close_completions t evs).dying_calls = 1 ∧
    (run_close_completions t evs).freed = true ∧
    (run_close_completions t evs).ref_count = 0 ∧
    ∀ k, k < evs.length →
      (run_close_completions t (evs.take k)).dying_calls = 0 ∧
      (run_close_completions t (evs.take k)).freed = false := by
  have hprefix : ∀ k, k < evs.length →
      (run_close_completions t (evs.take k)).dying_calls = 0 ∧
      (run_close_completions t (evs.take k)).freed = false := by
    intro k hk
    have hlen : ((evs.take k).length : Int) < t.ref_count := by
      rw [href]
      have hkk : (evs.take k).length = k := by
        simp [List.length_take]
        omega
      rw [hkk]
      omega
    rw [run_close_completions_of_lt (evs.take k) t hlen]
    exact ⟨hcalls, hfreed⟩
  obtain ⟨init, last, rfl⟩ : ∃ init last, evs = init ++ [last] := by
    rcases List.eq_nil_or_concat evs with h | ⟨init, last, h⟩
    · subst h; simp at hpos
    · exact ⟨init, last, by simpa [List.concat_eq_append] using h⟩
  have hmidlen : ((init.length : Int)) < t.ref_count := by
    rw [href]
    simp only [List.length_append, List.length_cons, List.length_nil]
    push_cast
    omega
  have hmid : run_close_completions t init =
      { t with ref_count := t.ref_count - (init.length : Int) } :=
    run_close_completions_of_lt init t hmidlen
  have hfold : run_close_completions t (init ++ [last]) =
      tunnel_release (run_close_completions t init) := by
    simp [run_close_completions, List.foldl_append, socket_close_done_cb]
  have hmidref : t.ref_count - (init.length : Int) - 1 = 0 := by
    rw [href]
    simp only [List.length_append, List.length_cons, List.length_nil]
    push_cast
    ring
  rw [hfold, hmid]
  unfold tunnel_release
  rw [if_pos (by simpa using hmidref)]
  rw [if_pos (by simpa using hdying)]
  refine ⟨by simp [hcalls], by simp, by simpa using hmidref, hprefix⟩

/-! ## Claims about the tunnel lifecycle -/

/-- C4: reference-count correctness.  `socket_close` takes exactly two
references (one per owned resource) and requests exactly the two
asynchronous closes of the socket handle and the timer handle; each close
completion (`socket_close_done_cb`, i.e. `tunnel_release`) decrements the
count by one; and for any list of N pending close completions matching the
reference count, delivered in any order, the tunnel is destroyed exactly
once — `tunnel_dying` fires once and the memory is freed — precisely at
the N-th completion, and at no earlier prefix. -/
theorem tunnel_refcount_destroy_once :
    (∀ (t : tunnel_ctx) (w : Which) (t' : tunnel_ctx), socket_close t w = some t' →
      t'.ref_count = t.ref_count + 2 ∧
      t'.close_requests = t.close_requests ++
        [⟨w, HandleKind.socket_handle⟩, ⟨w, HandleKind.timer_handle⟩]) ∧
    (∀ (t : tunnel_ctx) (e : CloseEvt), socket_close_done_cb t e = tunnel_release t ∧
      (tunnel_release t).ref_count = t.ref_count - 1) ∧
    (∀ (evs : List CloseEvt) (t : tunnel_ctx),
      t.ref_count = (evs.length : Int) → 0 < evs.length →
      t.has_dying = true → t.dying_calls = 0 → t.freed = false →
      (run_close_completions t evs).dying_calls = 1 ∧
      (run_close_completions t evs).freed = true ∧
      (run_close_completions t evs).ref_count = 0 ∧
      ∀ k, k < evs.length →
        (run_close_completions t (evs.take k)).dying_calls = 0 ∧
        (run_close_completions t (evs.take k)).freed = false) := by
  refine ⟨?_, ?_, run_close_completions_destroy⟩
  · intro t w t' h
    unfold socket_close at h
    split at h
    · simp at h
    · obtain rfl : _ = t' := by simpa using h
      cases w <;>
        constructor <;>
          simp [uv_close_request, tunnel_add_ref, setSock] <;> omega
  · intro t e
    refine ⟨rfl, ?_⟩
    by_cases hz : t.ref_count - 1 = 0 <;>
      by_cases hd : t.has_dying = true <;>
        simp [tunnel_release, hz, hd]

/-- C4 witness: the reference-count theorem applied to concrete states:
closing the incoming socket of a fresh tunnel, and the four completions of
a tunnel holding four references delivered in an order different from the
request order, with destruction only at the fourth. -/
theorem tunnel_refcount_destroy_once_witness :
    socket_close tunFresh Which.incoming = some tunIncClosed ∧
    tunIncClosed.ref_count = tunFresh.ref_count + 2 ∧
    tunIncClosed.close_requests = tunFresh.close_requests ++
      [⟨Which.incoming, HandleKind.socket_handle⟩, ⟨Which.incoming, HandleKind.timer_handle⟩] ∧
    tunRef4.ref_count = (evs4.length : Int) ∧
    0 < evs4.length ∧
    (run_close_completions tunRef4 evs4).dying_calls = 1 ∧
    (run_close_completions tunRef4 evs4).freed = true ∧
    (run_close_completions tunRef4 evs4).ref_count = 0 ∧
    (run_close_completions tunRef4 (evs4.take 3)).dying_calls = 0 ∧
    (run_close_completions tunRef4 (evs4.take 3)).freed = false := by
  have h := tunnel_refcount_destroy_once
  have hclose := h.1 tunFresh Which.incoming tunIncClosed (by decide)
  have hrun := h.2.2 evs4 tunRef4 (by decide) (by decide) (by decide) (by decide) (by decide)
  have htake := hrun.2.2.2 3 (by decide)
  exact ⟨by decide, hclose.1, hclose.2, by decide, by decide, hrun.1, hrun.2.1, hrun.2.2.1,
    htake.1, htake.2⟩

/-- C5: shutdown is idempotent.  On a tunnel whose terminated flag is set,
`tunnel_shutdown` returns the tunnel completely unchanged — no socket or
session state change, no reference-count change, nothing freed — and any
successful shutdown yields a terminated tunnel on which every further
shutdown is that same no-op. -/
theorem tunnel_shutdown_idempotent (t t' : tunnel_ctx) :
    (t.terminated = true → tunnel_shutdown t = some t) ∧
    (tunnel_shutdown t = some t' → t'.terminated = true ∧ tunnel_shutdown t' = some t') := by
  have hnoop : ∀ s : tunnel_ctx, s.terminated = true → tunnel_shutdown s = some s := by
    intro s hs
    simp [tunnel_shutdown, tunnel_is_dead, hs]
  refine ⟨hnoop t, fun h => ?_⟩
  have ht' := shutdown_some_terminated t t' h
  exact ⟨ht', hnoop t' ht'⟩

/-- C5 witness: the idempotence theorem applied to an already-terminated
tunnel and to the concrete result of shutting down a fresh tunnel. -/
theorem tunnel_shutdown_idempotent_witness :
    (tunTerminated.terminated = true ∧ tunnel_shutdown tunTerminated = some tunTerminated) ∧
    (tunnel_shutdown tunFresh = some tunClosed ∧ tunClosed.terminated = true ∧
      tunnel_shutdown tunClosed = some tunClosed) := by
  have h1 := (tunnel_shutdown_idempotent tunTerminated tunTerminated).1 (by decide)
  have h2 := (tunnel_shutdown_idempotent tunFresh tunClosed).2 (by decide)
  exact ⟨⟨by decide, h1⟩, ⟨by decide, h2.1, h2.2⟩⟩

/-- C6 counterexample: a completion on a terminated session is not a pure
no-op.  On a terminated tunnel whose outgoing socket has result 0, the
connect completion with status 7 still records 7 in the socket's result
field before observing the terminated flag, so session state changes. -/
theorem socket_connect_done_cb_terminated_writes_result :
    (socket_connect_done_cb tunTerminated Which.outgoing 7).map
      (fun p => (getSock p.1 Which.outgoing).result) = some 7 ∧
    (getSock tunTerminated Which.outgoing).result = 0 := by
  exact ⟨by decide, by decide⟩

/-- C6 amended: once the terminated flag is set, every completion callback
(read, write, connect, resolve, timer expiry) returns before invoking any
collaborator callback and before starting any operation (empty invocation
log); read and write completions change no state at all, but the connect,
resolve and timer completions still record the result code on the socket
(and the resolve completion clears the resolution-pending flag) before
observing the terminated flag. -/
theorem terminated_callbacks_no_collaborator_calls (t : tunnel_ctx) (w : Which)
    (status nread : Int) (ai : Option AddrFamily) (ht : t.terminated = true) :
    socket_read_done_cb t w nread = some (t, []) ∧
    socket_write_done_cb t w status = some (t, []) ∧
    socket_connect_done_cb t w status =
      some (updateSock t w (fun c => { c with result := status }), []) ∧
    socket_getaddrinfo_done_cb t w status ai =
      some ({ updateSock t w (fun c => { c with result := status }) with
        getaddrinfo_pending := false }, []) ∧
    socket_timer_expire_cb t w =
      some (updateSock t w (fun c => { c with result := UV_ETIMEDOUT }), []) := by
  cases w <;>
    refine ⟨?_, ?_, ?_, ?_, ?_⟩ <;>
      simp [socket_read_done_cb, socket_write_done_cb, socket_connect_done_cb,
        socket_getaddrinfo_done_cb, socket_timer_expire_cb, tunnel_is_dead,
        updateSock, setSock, getSock, ht]

/-- C6 amended, witness: the amended statement applied to a concrete
terminated tunnel, one completion of each kind. -/
theorem terminated_callbacks_no_collaborator_calls_witness :
    tunTerminated.terminated = true ∧
    (socket_read_done_cb tunTerminated Which.outgoing 5 = some (tunTerminated, []) ∧
     socket_write_done_cb tunTerminated Which.outgoing 7 = some (tunTerminated, []) ∧
     socket_connect_done_cb tunTerminated Which.outgoing 7 =
       some (updateSock tunTerminated Which.outgoing (fun c => { c with result := 7 }), []) ∧
     socket_getaddrinfo_done_cb tunTerminated Which.outgoing 7 none =
       some ({ updateSock tunTerminated Which.outgoing (fun c => { c with result := 7 }) with
         getaddrinfo_pending := false }, []) ∧
     socket_timer_expire_cb tunTerminated Which.outgoing =
       some (updateSock tunTerminated Which.outgoing
         (fun c => { c with result := UV_ETIMEDOUT }), [])) :=
  ⟨rfl, terminated_callbacks_no_collaborator_calls tunTerminated Which.outgoing 7 5 none rfl⟩

/-- C7: connect completion policy.  On a live session (sockets not yet
closed, hook set), the connect completion stops the idle timer and records
the status on the socket; `UV_ECANCELED` or `UV_ECONNREFUSED` shuts the
session down (terminated becomes true) without invoking
`tunnel_outgoing_connected_done`; every other status invokes
`tunnel_outgoing_connected_done` and does not shut the session down. -/
theorem socket_connect_done_cb_policy (t : tunnel_ctx) (w : Which) (status : Int)
    (hlive : t.terminated = false)
    (h1 : t.incoming.rdstate ≠ SocketState.socket_dead)
    (h2 : t.incoming.wrstate ≠ SocketState.socket_dead)
    (h3 : t.outgoing.rdstate ≠ SocketState.socket_dead)
    (h4 : t.outgoing.wrstate ≠ SocketState.socket_dead)
    (hhook : t.has_outgoing_connected_done = true) :
    (socket_connect_done_cb t w status).map
        (fun p => (getSock p.1 w).timer_running) = some false ∧
    (socket_connect_done_cb t w status).map
        (fun p => (getSock p.1 w).result) = some status ∧
    (if status = UV_ECANCELED ∨ status = UV_ECONNREFUSED
     then (socket_connect_done_cb t w status).map
        (fun p => (p.1.terminated, p.2)) = some (true, [])
     else (socket_connect_done_cb t w status).map
        (fun p => (p.1.terminated, p.2)) =
          some (false, [CollabCall.outgoing_connected w])) := by
  by_cases hs : status = UV_ECANCELED ∨ status = UV_ECONNREFUSED
  · cases w
    · have hT := tunnel_shutdown_eval
        { t with incoming := { t.incoming with result := status, timer_running := false } }
        hlive h1 h2 h3 h4
      have hcb : socket_connect_done_cb t Which.incoming status =
          (tunnel_shutdown { t with incoming :=
            { t.incoming with result := status, timer_running := false } }).map
            (fun t3 => (t3, [])) := by
        simp only [socket_connect_done_cb, updateSock, setSock, getSock, socket_timer_stop,
          tunnel_is_dead]
        rw [if_neg (by simp [hlive]), if_pos hs]
      rw [if_pos hs]
      refine ⟨?_, ?_, ?_⟩ <;> rw [hcb, hT] <;> simp [getSock]
    · have hT := tunnel_shutdown_eval
        { t with outgoing := { t.outgoing with result := status, timer_running := false } }
        hlive h1 h2 h3 h4
      have hcb : socket_connect_done_cb t Which.outgoing status =
          (tunnel_shutdown { t with outgoing :=
            { t.outgoing with result := status, timer_running := false } }).map
            (fun t3 => (t3, [])) := by
        simp only [socket_connect_done_cb, updateSock, setSock, getSock, socket_timer_stop,
          tunnel_is_dead]
        rw [if_neg (by simp [hlive]), if_pos hs]
      rw [if_pos hs]
      refine ⟨?_, ?_, ?_⟩ <;> rw [hcb, hT] <;> simp [getSock]
  · cases w
    · have hcb : socket_connect_done_cb t Which.incoming status =
          some ({ t with incoming :=
            { t.incoming with result := status, timer_running := false } },
            [CollabCall.outgoing_connected Which.incoming]) := by
        simp only [socket_connect_done_cb, updateSock, setSock, getSock, socket_timer_stop,
          tunnel_is_dead]
        rw [if_neg (by simp [hlive]), if_neg hs, if_neg (by simp [hhook])]
      rw [if_neg hs]
      refine ⟨?_, ?_, ?_⟩ <;> rw [hcb] <;> simp [getSock, hlive]
    · have hcb : socket_connect_done_cb t Which.outgoing status =
          some ({ t with outgoing :=
            { t.outgoing with result := status, timer_running := false } },
            [CollabCall.outgoing_connected Which.outgoing]) := by
        simp only [socket_connect_done_cb, updateSock, setSock, getSock, socket_timer_stop,
          tunnel_is_dead]
        rw [if_neg (by simp [hlive]), if_neg hs, if_neg (by simp [hhook])]
      rw [if_neg hs]
      refine ⟨?_, ?_, ?_⟩ <;> rw [hcb] <;> simp [getSock, hlive]

/-- C7 witness: the connect-completion policy applied to a fresh live
tunnel, once with `UV_ECONNREFUSED` (shutdown path) and once with status 0
(callback path). -/
theorem socket_connect_done_cb_policy_witness :
    tunFresh.terminated = false ∧
    tunFresh.has_outgoing_connected_done = true ∧
    ((socket_connect_done_cb tunFresh Which.outgoing UV_ECONNREFUSED).map
        (fun p => (getSock p.1 Which.outgoing).timer_running) = some false ∧
     (socket_connect_done_cb tunFresh Which.outgoing UV_ECONNREFUSED).map
        (fun p => (getSock p.1 Which.outgoing).result) = some UV_ECONNREFUSED ∧
     (if UV_ECONNREFUSED = UV_ECANCELED ∨ UV_ECONNREFUSED = UV_ECONNREFUSED
      then (socket_connect_done_cb tunFresh Which.outgoing UV_ECONNREFUSED).map
        (fun p => (p.1.terminated, p.2)) = some (true, [])
      else (socket_connect_done_cb tunFresh Which.outgoing UV_ECONNREFUSED).map
        (fun p => (p.1.terminated, p.2)) =
          some (false, [CollabCall.outgoing_connected Which.outgoing]))) ∧
    ((socket_connect_done_cb tunFresh Which.outgoing 0).map
        (fun p => (getSock p.1 Which.outgoing).timer_running) = some false ∧
     (socket_connect_done_cb tunFresh Which.outgoing 0).map
        (fun p => (getSock p.1 Which.outgoing).result) = some 0 ∧
     (if (0 : Int) = UV_ECANCELED ∨ (0 : Int) = UV_ECONNREFUSED
      then (socket_connect_done_cb tunFresh Which.outgoing 0).map
        (fun p => (p.1.terminated, p.2)) = some (true, [])
      else (socket_connect_done_cb tunFresh Which.outgoing 0).map
        (fun p => (p.1.terminated, p.2)) =
          some (false, [CollabCall.outgoing_connected Which.outgoing]))) := by
  refine ⟨rfl, rfl, ?_, ?_⟩
  · exact socket_connect_done_cb_policy tunFresh Which.outgoing UV_ECONNREFUSED rfl
      (by decide) (by decide) (by decide) (by decide) rfl
  · exact socket_connect_done_cb_policy tunFresh Which.outgoing 0 rfl
      (by decide) (by decide) (by decide) (by decide) rfl

/-- C8: zero-length read completions are ignored.  On a live session, a
read completion delivering zero bytes invokes no collaborator callback,
leaves the socket's read state and result unchanged, and does not shut the
session down. -/
theorem socket_read_done_cb_zero_ignored (t : tunnel_ctx) (w : Which)
    (hlive : t.terminated = false) :
    ∃ t', socket_read_done_cb t w 0 = some (t', []) ∧
      (getSock t' w).rdstate = (getSock t w).rdstate ∧
      (getSock t' w).result = (getSock t w).result ∧
      t'.terminated = false := by
  cases w
  case incoming =>
    by_cases hfly : t.is_on_the_fly
    · refine ⟨{ t with incoming := { t.incoming with timer_running := false } },
        ?_, ?_, ?_, ?_⟩
      · simp [socket_read_done_cb, tunnel_is_dead, socket_timer_stop, updateSock,
          getSock, setSock, hlive, hfly]
      · simp [getSock]
      · simp [getSock]
      · exact hlive
    · refine ⟨{ t with incoming :=
          { t.incoming with uv_reading := false, timer_running := false } },
        ?_, ?_, ?_, ?_⟩
      · simp [socket_read_done_cb, tunnel_is_dead, socket_timer_stop, updateSock,
          getSock, setSock, hlive, hfly]
      · simp [getSock]
      · simp [getSock]
      · exact hlive
  case outgoing =>
    by_cases hfly : t.is_on_the_fly
    · refine ⟨{ t with outgoing := { t.outgoing with timer_running := false } },
        ?_, ?_, ?_, ?_⟩
      · simp [socket_read_done_cb, tunnel_is_dead, socket_timer_stop, updateSock,
          getSock, setSock, hlive, hfly]
      · simp [getSock]
      · simp [getSock]
      · exact hlive
    · refine ⟨{ t with outgoing :=
          { t.outgoing with uv_reading := false, timer_running := false } },
        ?_, ?_, ?_, ?_⟩
      · simp [socket_read_done_cb, tunnel_is_dead, socket_timer_stop, updateSock,
          getSock, setSock, hlive, hfly]
      · simp [getSock]
      · simp [getSock]
      · exact hlive

/-- C8 witness: the zero-length-read theorem applied to a fresh live
tunnel. -/
theorem socket_read_done_cb_zero_ignored_witness :
    tunFresh.terminated = false ∧
    (∃ t', socket_read_done_cb tunFresh Which.incoming 0 = some (t', []) ∧
      (getSock t' Which.incoming).rdstate = (getSock tunFresh Which.incoming).rdstate ∧
      (getSock t' Which.incoming).result = (getSock tunFresh Which.incoming).result ∧
      t'.terminated = false) :=
  ⟨rfl, socket_read_done_cb_zero_ignored tunFresh Which.incoming rfl⟩

/-- C9 counterexample: `Closed` is not terminal under `socket_read_stop`.
On a fully shut-down tunnel whose incoming socket has both states
`socket_dead`, `socket_read_stop` unconditionally resets the read state to
`socket_stop`, moving it out of `Closed`. -/
theorem socket_read_stop_on_closed_resets :
    (getSock tunClosed Which.incoming).rdstate = SocketState.socket_dead ∧
    (getSock (socket_read_stop tunClosed Which.incoming) Which.incoming).rdstate =
      SocketState.socket_stop := by
  exact ⟨by decide, by decide⟩

/-- C9 amended: `socket_close` forces both of a socket's states to
`socket_dead`; on a socket whose states are `socket_dead`, `socket_read`
and `socket_close` fail an assertion and change nothing, as does
`socket_write` outside streaming mode; but `socket_read_stop`
unconditionally resets the read state to `socket_stop` even on a closed
socket. -/
theorem socket_closed_terminal (t t' : tunnel_ctx) (w : Which) :
    (socket_close t w = some t' →
      (getSock t' w).rdstate = SocketState.socket_dead ∧
      (getSock t' w).wrstate = SocketState.socket_dead) ∧
    ((getSock t w).rdstate = SocketState.socket_dead → socket_read t w = none) ∧
    ((getSock t w).rdstate = SocketState.socket_dead ∨
      (getSock t w).wrstate = SocketState.socket_dead → socket_close t w = none) ∧
    (t.is_on_the_fly = false → (getSock t w).wrstate = SocketState.socket_dead →
      socket_write t w = none) ∧
    (getSock (socket_read_stop t w) w).rdstate = SocketState.socket_stop := by
  refine ⟨?_, ?_, ?_, ?_, ?_⟩
  · intro h
    unfold socket_close at h
    split at h
    · simp at h
    · obtain rfl : _ = t' := by simpa using h
      cases w <;> simp [uv_close_request, tunnel_add_ref, setSock, getSock]
  · intro h
    simp [socket_read, h]
  · intro h
    simp [socket_close, h]
  · intro hfly h
    simp [socket_write, hfly, h]
  · cases w <;> simp [socket_read_stop, updateSock, setSock, getSock]

/-- C9 amended, witness: the amended statement exercised on concrete
closed sockets. -/
theorem socket_closed_terminal_witness :
    socket_close tunFresh Which.incoming = some tunIncClosed ∧
    ((getSock tunIncClosed Which.incoming).rdstate = SocketState.socket_dead ∧
     (getSock tunIncClosed Which.incoming).wrstate = SocketState.socket_dead) ∧
    socket_read tunClosed Which.incoming = none ∧
    socket_close tunClosed Which.incoming = none ∧
    socket_write tunClosed Which.incoming = none ∧
    (getSock (socket_read_stop tunClosed Which.incoming) Which.incoming).rdstate =
      SocketState.socket_stop := by
  have h1 := (socket_closed_terminal tunFresh tunIncClosed Which.incoming).1 (by decide)
  have h2 := (socket_closed_terminal tunClosed tunClosed Which.incoming).2.1 (by decide)
  have h3 := (socket_closed_terminal tunClosed tunClosed Which.incoming).2.2.1
    (Or.inl (by decide))
  have h4 := (socket_closed_terminal tunClosed tunClosed Which.incoming).2.2.2.1
    (by decide) (by decide)
  have h5 := (socket_closed_terminal tunClosed tunClosed Which.incoming).2.2.2.2
  exact ⟨by decide, h1, h2, h3, h4, h5⟩
